import Mathlib

set_option maxHeartbeats 1000000

namespace TrivyOfflineScanner

/-- JSON-like values as produced by decoding the scanner's structured output
(Python values from json.loads: None, bool, int, str, list, dict with string
keys). -/
inductive JVal where
  | null : JVal
  | bool (b : Bool) : JVal
  | num (n : Int) : JVal
  | str (s : String) : JVal
  | arr (xs : List JVal) : JVal
  | obj (kvs : List (String × JVal)) : JVal

/-- Python exception kinds that the summarizer code paths can raise. -/
inductive PyErr where
  | typeError
  | attributeError
  | keyError
  deriving DecidableEq

/-- Lookup in a Python dict with string keys (dict access and dict.get). -/
def olookup (key : String) : List (String × JVal) → Option JVal
  | [] => none
  | (k, v) :: rest => if k == key then some v else olookup key rest

/-- Python dict key equality for hashable keys: True == 1 and False == 0,
strings compare by content; lists and dicts are unhashable and never stored. -/
def jKeyEq : JVal → JVal → Bool
  | JVal.null, JVal.null => true
  | JVal.bool a, JVal.bool b => a == b
  | JVal.bool a, JVal.num n => (if a then (1 : Int) else 0) == n
  | JVal.num n, JVal.bool b => n == (if b then (1 : Int) else 0)
  | JVal.num a, JVal.num b => a == b
  | JVal.str a, JVal.str b => a == b
  | _, _ => false

/-- Whether a value can be used as a Python dict key (hashable). -/
def jHashable : JVal → Bool
  | JVal.arr _ => false
  | JVal.obj _ => false
  | _ => true

/-- Python truthiness of a decoded value. -/
def jFalsy : JVal → Bool
  | JVal.null => true
  | JVal.bool b => !b
  | JVal.num n => n == 0
  | JVal.str s => s.isEmpty
  | JVal.arr xs => xs.isEmpty
  | JVal.obj kvs => kvs.isEmpty

/-- Whether the pattern occurs at the head of the text. -/
def leadMatch : List Char → List Char → Bool
  | [], _ => true
  | _ :: _, [] => false
  | a :: p, b :: l => a == b && leadMatch p l

/-- Whether the pattern occurs anywhere in the text. -/
def subOccurs (p : List Char) : List Char → Bool
  | [] => leadMatch p []
  | b :: l => leadMatch p (b :: l) || subOccurs p l

/-- Python substring membership: pat in s. -/
def strContains (s pat : String) : Bool :=
  subOccurs pat.toList s.toList

/-- Python membership test key in j for a string key: dict key membership,
list element membership, substring test for strings; TypeError otherwise. -/
def jContains (j : JVal) (key : String) : Except PyErr Bool :=
  match j with
  | JVal.obj kvs => Except.ok (olookup key kvs).isSome
  | JVal.arr xs =>
      Except.ok (xs.any (fun x => match x with
        | JVal.str s => s == key
        | _ => false))
  | JVal.str s => Except.ok (strContains s key)
  | _ => Except.error PyErr.typeError

/-- Python subscript j[key] with a string key: dict access; on any
non-dict value string subscripts raise TypeError. -/
def jSubscript (j : JVal) (key : String) : Except PyErr JVal :=
  match j with
  | JVal.obj kvs =>
      match olookup key kvs with
      | some v => Except.ok v
      | none => Except.error PyErr.keyError
  | _ => Except.error PyErr.typeError

/-- Python iteration over a value: lists yield elements, strings yield
one-character strings, dicts yield their keys; TypeError otherwise. -/
def jIter (j : JVal) : Except PyErr (List JVal) :=
  match j with
  | JVal.arr xs => Except.ok xs
  | JVal.str s => Except.ok (s.toList.map (fun c => JVal.str c.toString))
  | JVal.obj kvs => Except.ok (kvs.map (fun kv => JVal.str kv.1))
  | _ => Except.error PyErr.typeError

/-- The summary dict: insertion-ordered association list with Python dict
key semantics and integer counts. -/
abbrev Summary := List (JVal × Int)

/-- Summary dict lookup (summary.get). -/
def summaryGet : Summary → JVal → Option Int
  | [], _ => none
  | (k, v) :: rest, key => if jKeyEq k key then some v else summaryGet rest key

/-- Summary dict store (summary[key] = v): updates the first matching key in
place, otherwise appends at the end, as a Python dict does. -/
def summarySet : Summary → JVal → Int → Summary
  | [], key, v => [(key, v)]
  | (k, w) :: rest, key, v =>
      if jKeyEq k key then (k, v) :: rest else (k, w) :: summarySet rest key v

/-- The summary literal initialized at the top of get_vulnerability_summary
(source lines 222 to 229). -/
def initialSummary : Summary :=
  [(JVal.str "CRITICAL", 0),
   (JVal.str "HIGH", 0),
   (JVal.str "MEDIUM", 0),
   (JVal.str "LOW", 0),
   (JVal.str "UNKNOWN", 0),
   (JVal.str "total", 0)]

/-- The body of the inner loop of get_vulnerability_summary (source lines
236 to 239): severity = vuln.get("Severity", "UNKNOWN");
summary[severity] = summary.get(severity, 0) + 1; summary["total"] += 1.
Non-dict vulnerability entries raise AttributeError at .get; an unhashable
severity raises TypeError at the dict lookup. -/
def countVuln (summary : Summary) (vuln : JVal) : Except PyErr Summary :=
  match vuln with
  | JVal.obj kvs =>
      let severity := (olookup "Severity" kvs).getD (JVal.str "UNKNOWN")
      if jHashable severity then
        let s1 := summarySet summary severity ((summaryGet summary severity).getD 0 + 1)
        match summaryGet s1 (JVal.str "total") with
        | some t => Except.ok (summarySet s1 (JVal.str "total") (t + 1))
        | none => Except.error PyErr.keyError
      else Except.error PyErr.typeError
  | _ => Except.error PyErr.attributeError

/-- The body of the outer loop of get_vulnerability_summary (source lines
235 to 239): if "Vulnerabilities" in result and result["Vulnerabilities"]:
iterate the vulnerabilities through the inner loop. -/
def countResult (summary : Summary) (result : JVal) : Except PyErr Summary :=
  match jContains result "Vulnerabilities" with
  | Except.error e => Except.error e
  | Except.ok false => Except.ok summary
  | Except.ok true =>
      match jSubscript result "Vulnerabilities" with
      | Except.error e => Except.error e
      | Except.ok vulns =>
          if jFalsy vulns then Except.ok summary
          else
            match jIter vulns with
            | Except.error e => Except.error e
            | Except.ok items => items.foldlM countVuln summary

/-- get_vulnerability_summary (source lines 212 to 241): returns the
initialized summary when the input is falsy or has no "Results" member,
otherwise walks every per-target result entry; propagated Python exceptions
are the error branch. -/
def get_vulnerability_summary (scan_results : JVal) : Except PyErr Summary :=
  if jFalsy scan_results then Except.ok initialSummary
  else
    match jContains scan_results "Results" with
    | Except.error e => Except.error e
    | Except.ok false => Except.ok initialSummary
    | Except.ok true =>
        match jSubscript scan_results "Results" with
        | Except.error e => Except.error e
        | Except.ok results =>
            match jIter results with
            | Except.error e => Except.error e
            | Except.ok items => items.foldlM countResult initialSummary

/-- The five severity labels of the summary. -/
def isSeverityLabel (L : String) : Bool :=
  L == "CRITICAL" || L == "HIGH" || L == "MEDIUM" || L == "LOW" || L == "UNKNOWN"

/-- A well-formed vulnerability entry: a JSON object whose Severity, when
present, is one of the five severity labels. -/
def wellFormedVuln : JVal → Bool
  | JVal.obj kvs =>
      match olookup "Severity" kvs with
      | some (JVal.str L) => isSeverityLabel L
      | some _ => false
      | none => true
  | _ => false

/-- A well-formed per-target result entry: a JSON object whose
Vulnerabilities member, when present, is a list of well-formed entries. -/
def wellFormedResult : JVal → Bool
  | JVal.obj kvs =>
      match olookup "Vulnerabilities" kvs with
      | some (JVal.arr vs) => vs.all wellFormedVuln
      | some _ => false
      | none => true
  | _ => false

/-- A well-formed structured scan result: a JSON object whose Results member
is a list of well-formed per-target result entries. -/
def wellFormedScan : JVal → Bool
  | JVal.obj kvs =>
      match olookup "Results" kvs with
      | some (JVal.arr rs) => rs.all wellFormedResult
      | _ => false
  | _ => false

/-- Number of vulnerability entries reported by one per-target result. -/
def resultVulnCount : JVal → Nat
  | JVal.obj kvs =>
      match olookup "Vulnerabilities" kvs with
      | some (JVal.arr vs) => vs.length
      | _ => 0
  | _ => 0

/-- Number of vulnerability entries across all result targets. -/
def totalVulnCount : JVal → Nat
  | JVal.obj kvs =>
      match olookup "Results" kvs with
      | some (JVal.arr rs) => (rs.map resultVulnCount).sum
      | _ => 0
  | _ => 0

/-- The five severity buckets and the running total all present, with the
total the sum of the buckets. -/
def bucketState (s : Summary) (c h m l u : Int) : Prop :=
  summaryGet s (JVal.str "CRITICAL") = some c ∧
  summaryGet s (JVal.str "HIGH") = some h ∧
  summaryGet s (JVal.str "MEDIUM") = some m ∧
  summaryGet s (JVal.str "LOW") = some l ∧
  summaryGet s (JVal.str "UNKNOWN") = some u ∧
  summaryGet s (JVal.str "total") = some (c + h + m + l + u)

/-- Invariant of the summary dict: the six initialized keys stay present and
every stored count is non-negative. -/
def summaryInv (s : Summary) : Prop :=
  ((summaryGet s (JVal.str "CRITICAL")).isSome = true) ∧
  ((summaryGet s (JVal.str "HIGH")).isSome = true) ∧
  ((summaryGet s (JVal.str "MEDIUM")).isSome = true) ∧
  ((summaryGet s (JVal.str "LOW")).isSome = true) ∧
  ((summaryGet s (JVal.str "UNKNOWN")).isSome = true) ∧
  ((summaryGet s (JVal.str "total")).isSome = true) ∧
  (∀ k v, summaryGet s k = some v → 0 ≤ v)

/-- Outcome of one subprocess.run call with captured output. -/
structure ProcResult where
  returncode : Int
  stdout : String
  stderr : String

/-- Return value of scan_image: parsed dict for the json format, raw text
otherwise, or None on any failure. -/
inductive ScanOutcome where
  | jsonResult (j : JVal)
  | textResult (s : String)
  | noResult

/-- Result of one scan_image call together with its observable side effects:
the external commands invoked and the files written (path, content). -/
structure ScanEffects where
  outcome : ScanOutcome
  invoked : List (List String)
  writes : List (String × String)

/-- The scanner's filesystem configuration and the observable state of the
database directory: whether self.db_path exists and its entries. -/
structure ScannerState where
  db_path : String
  cache_path : String
  results_dir : String
  db_exists : Bool
  db_entries : List String

/-- The optional severity flag (source lines 152 to 153): Python appends
the flag only when the list is truthy, that is present and non-empty. -/
def severityArgs : Option (List String) → List String
  | some sev => if sev.isEmpty then [] else ["--severity", String.intercalate "," sev]
  | none => []

/-- The optional vulnerability-type flag (source lines 156 to 157). -/
def vulnTypeArgs : Option (List String) → List String
  | some vt => if vt.isEmpty then [] else ["--vuln-type", String.intercalate "," vt]
  | none => []

/-- The docker command built by scan_image (source lines 138 to 160). -/
def buildScanCmd (st : ScannerState) (format : String)
    (severity vuln_type : Option (List String)) (image : String) : List String :=
  ["docker", "run", "--rm",
   "-v", "/var/run/docker.sock:/var/run/docker.sock:ro",
   "-v", st.cache_path ++ ":/root/.cache/trivy",
   "-v", st.db_path ++ ":/trivy-db:ro",
   "-e", "TRIVY_CACHE_DIR=/root/.cache/trivy",
   "-e", "TRIVY_DB_REPOSITORY=file:///trivy-db",
   "-e", "TRIVY_SKIP_UPDATE=true",
   "aquasec/trivy:latest",
   "image",
   "--format", format]
  ++ (severityArgs severity ++ (vulnTypeArgs vuln_type ++ [image]))

/-- scan_image (source lines 110 to 184). run models subprocess.run on the
built command; json_loads models json.loads, none standing for a decode
exception, which the blanket except at line 182 turns into None. The output
file is written only for a truthy (present, non-empty) name, before parsing,
and only on exit code zero. -/
def scan_image (st : ScannerState) (run : List String → ProcResult)
    (json_loads : String → Option JVal) (image : String) (format : String)
    (severity : Option (List String)) (output_file : Option String)
    (vuln_type : Option (List String)) : ScanEffects :=
  if !st.db_exists || st.db_entries.isEmpty then
    { outcome := ScanOutcome.noResult, invoked := [], writes := [] }
  else
    let cmd := buildScanCmd st format severity vuln_type image
    let result := run cmd
    if result.returncode ≠ 0 then
      { outcome := ScanOutcome.noResult, invoked := [cmd], writes := [] }
    else
      let writes : List (String × String) :=
        match output_file with
        | some f => if f.isEmpty then [] else [(st.results_dir ++ "/" ++ f, result.stdout)]
        | none => []
      if format == "json" then
        match json_loads result.stdout with
        | some j => { outcome := ScanOutcome.jsonResult j, invoked := [cmd], writes := writes }
        | none => { outcome := ScanOutcome.noResult, invoked := [cmd], writes := writes }
      else
        { outcome := ScanOutcome.textResult result.stdout, invoked := [cmd], writes := writes }

/-- Python dict store for string keys, insertion ordered. -/
def dictInsert (k : String) (v : ScanOutcome) : List (String × ScanOutcome) → List (String × ScanOutcome)
  | [] => [(k, v)]
  | (k', v') :: rest => if k' == k then (k', v) :: rest else (k', v') :: dictInsert k v rest

/-- Python dict lookup for string keys. -/
def dictLookup (k : String) : List (String × ScanOutcome) → Option ScanOutcome
  | [] => none
  | (k', v) :: rest => if k' == k then some v else dictLookup k rest

/-- Result of scan_multiple_images: the results dict plus the images passed
to scan_image, in call order. -/
structure MultiScanEffects where
  results : List (String × ScanOutcome)
  scanned : List String

/-- The loop of scan_multiple_images (source lines 203 to 210):
results[image] = self.scan_image(image, format=format, severity=severity). -/
def scanLoop (st : ScannerState) (run : List String → ProcResult)
    (json_loads : String → Option JVal) (format : String)
    (severity : Option (List String)) :
    List String → List (String × ScanOutcome) → List String → MultiScanEffects
  | [], results, scanned => { results := results, scanned := scanned }
  | image :: rest, results, scanned =>
      let r := (scan_image st run json_loads image format severity none none).outcome
      scanLoop st run json_loads format severity rest
        (dictInsert image r results) (scanned ++ [image])

/-- scan_multiple_images (source lines 186 to 210). -/
def scan_multiple_images (st : ScannerState) (run : List String → ProcResult)
    (json_loads : String → Option JVal) (images : List String) (format : String)
    (severity : Option (List String)) : MultiScanEffects :=
  scanLoop st run json_loads format severity images [] []

/-- Observable state of the local database directory for the stager. -/
structure DbFS where
  db_exists : Bool
  db_entries : List String

/-- setup_database (source lines 46 to 78): pull the distribution image,
then run the extraction container; a failed step reports failure and leaves
any partially copied files in place. pull_ok and extract_ok model the exit
status of the two subprocess.run calls, copied the files the extraction
container wrote into the mounted directory. -/
def setup_database (fs : DbFS) (pull_ok : Bool) (extract_ok : Bool)
    (copied : List String) : Bool × DbFS :=
  if !pull_ok then (false, fs)
  else if !extract_ok then (false, { fs with db_entries := fs.db_entries ++ copied })
  else (true, { fs with db_entries := fs.db_entries ++ copied })

/-- The clear step of update_database (source lines 98 to 101): when the
directory exists, shutil.rmtree then mkdir recreates it empty. -/
def clearedDb (fs : DbFS) : DbFS :=
  if fs.db_exists then { db_exists := true, db_entries := [] } else fs

/-- update_database (source lines 80 to 108): pull the latest image, clear
the existing database directory, then run the same extraction as setup,
which performs its own pull. -/
def update_database (fs : DbFS) (pull_ok : Bool) (setup_pull_ok : Bool)
    (extract_ok : Bool) (copied : List String) : Bool × DbFS :=
  if !pull_ok then (false, fs)
  else setup_database (clearedDb fs) setup_pull_ok extract_ok copied

/-- An image as reported by the docker runtime client. -/
structure DockerImage where
  id : String
  tags : List String
  size : Int
  created : String

/-- One record emitted by list_local_images. -/
structure LocalImageRecord where
  id : String
  tag : String
  size : Int
  created : String

/-- list_local_images (source lines 243 to 272). client is None when the
docker client failed to initialize; the error branch models any exception
from the runtime query, caught at line 270. Untagged images emit a single
placeholder record; ids are truncated to 12 characters. -/
def list_local_images (client : Option (Except String (List DockerImage))) :
    List LocalImageRecord :=
  match client with
  | none => []
  | some (Except.error _) => []
  | some (Except.ok images) =>
      images.flatMap (fun image =>
        let tags := if image.tags.isEmpty then ["<none>"] else image.tags
        tags.map (fun tag =>
          { id := image.id.take 12, tag := tag, size := image.size, created := image.created }))

/-- An argument pair occurring contiguously in a command line. -/
def hasArgSeq (args cmd : List String) : Prop :=
  ∃ pre suf, cmd = pre ++ (args ++ suf)

/-- A scanner state with a staged database, used to instantiate theorems. -/
def stEx : ScannerState :=
  { db_path := "/opt/trivy-db", cache_path := "/opt/trivy-cache",
    results_dir := "/opt/scan-results", db_exists := true, db_entries := ["trivy.db"] }

/-- A scanner state whose database directory is empty. -/
def stEmptyDb : ScannerState :=
  { stEx with db_entries := [] }

/-- A process oracle for a scan that exits zero with unparseable stdout. -/
def runBadStdout : List String → ProcResult :=
  fun _ => { returncode := 0, stdout := "not json", stderr := "" }

/-- A process oracle for a scan that exits non-zero. -/
def runFailing : List String → ProcResult :=
  fun _ => { returncode := 1, stdout := "", stderr := "FATAL: scan error" }

/-- A json.loads model that fails to decode every input. -/
def jlNone : String → Option JVal := fun _ => none

/-- A well-formed structured scan fixture with three vulnerability entries,
one of them without a Severity member. -/
def scanFixture : JVal :=
  JVal.obj [("Results", JVal.arr
    [JVal.obj [("Target", JVal.str "ubuntu"),
               ("Vulnerabilities", JVal.arr
                 [JVal.obj [("Severity", JVal.str "CRITICAL")],
                  JVal.obj [("Severity", JVal.str "LOW")],
                  JVal.obj [("VulnerabilityID", JVal.str "CVE-0000-0000")]])]])]

/-- A scan fixture whose single vulnerability entry carries a severity label
outside the five initialized buckets. -/
def infoSeverityFixture : JVal :=
  JVal.obj [("Results", JVal.arr
    [JVal.obj [("Vulnerabilities", JVal.arr
      [JVal.obj [("Severity", JVal.str "INFO")]])]])]

/-- A database directory state with one staged entry. -/
def dbEx : DbFS := { db_exists := true, db_entries := ["old.db"] }

/-- Only a string key compares equal to a string key under dict equality. -/
theorem jKeyEq_str_eq (k : JVal) (M : String) (h : jKeyEq k (JVal.str M) = true) :
    k = JVal.str M := by
  cases k <;> simp [jKeyEq] at h ⊢
  exact h

/-- Storing under a key that compares equal to itself makes it readable. -/
theorem summaryGet_summarySet_self (s : Summary) (k : JVal) (v : Int)
    (hk : jKeyEq k k = true) : summaryGet (summarySet s k v) k = some v := by
  induction s with
  | nil => simp [summarySet, summaryGet, hk]
  | cons kv rest ih =>
      obtain ⟨k', w⟩ := kv
      by_cases h1 : jKeyEq k' k = true
      · simp [summarySet, summaryGet, h1]
      · simp [summarySet, summaryGet, h1, ih]

/-- Storing under one string key does not change reads at another. -/
theorem summaryGet_summarySet_str_ne (s : Summary) (L M : String) (v : Int)
    (h : M ≠ L) :
    summaryGet (summarySet s (JVal.str L) v) (JVal.str M) = summaryGet s (JVal.str M) := by
  induction s with
  | nil =>
      have : jKeyEq (JVal.str L) (JVal.str M) = false := by
        simp [jKeyEq]
        exact fun hc => absurd hc.symm h
      simp [summarySet, summaryGet, this]
  | cons kv rest ih =>
      obtain ⟨k', w⟩ := kv
      by_cases h1 : jKeyEq k' (JVal.str L) = true
      · have hk' : k' = JVal.str L := jKeyEq_str_eq k' L h1
        subst hk'
        have hkM : jKeyEq (JVal.str L) (JVal.str M) = false := by
          simp [jKeyEq]
          exact fun hc => absurd hc.symm h
        simp [summarySet, summaryGet, h1, hkM]
      · simp [summarySet, summaryGet, h1, ih]

/-- Storing never removes a key that was present. -/
theorem summaryGet_summarySet_isSome (s : Summary) (k : JVal) (v : Int) (k0 : JVal)
    (h : (summaryGet s k0).isSome = true) :
    (summaryGet (summarySet s k v) k0).isSome = true := by
  induction s with
  | nil => simp [summaryGet] at h
  | cons kv rest ih =>
      obtain ⟨k', w⟩ := kv
      by_cases h1 : jKeyEq k' k = true
      · by_cases h2 : jKeyEq k' k0 = true
        · simp [summarySet, summaryGet, h1, h2]
        · simp [summaryGet, h2] at h
          simp [summarySet, summaryGet, h1, h2, h]
      · by_cases h2 : jKeyEq k' k0 = true
        · simp [summarySet, summaryGet, h1, h2]
        · simp [summaryGet, h2] at h
          simp [summarySet, summaryGet, h1, h2, ih h]

/-- Every value readable after a store is the stored value or an old one. -/
theorem summaryGet_summarySet_cases (s : Summary) (k : JVal) (v : Int) (k0 : JVal) (v0 : Int)
    (h : summaryGet (summarySet s k v) k0 = some v0) :
    v0 = v ∨ summaryGet s k0 = some v0 := by
  induction s with
  | nil =>
      by_cases h2 : jKeyEq k k0 = true
      · simp [summarySet, summaryGet, h2] at h
        exact Or.inl h.symm
      · simp [summarySet, summaryGet, h2] at h
  | cons kv rest ih =>
      obtain ⟨k', w⟩ := kv
      by_cases h1 : jKeyEq k' k = true
      · by_cases h2 : jKeyEq k' k0 = true
        · simp [summarySet, summaryGet, h1, h2] at h
          exact Or.inl h.symm
        · simp [summarySet, summaryGet, h1, h2] at h
          exact Or.inr (by simp [summaryGet, h2, h])
      · by_cases h2 : jKeyEq k' k0 = true
        · simp [summarySet, summaryGet, h1, h2] at h
          exact Or.inr (by simp [summaryGet, h2, h])
        · simp [summarySet, summaryGet, h1, h2] at h
          rcases ih h with hl | hr
          · exact Or.inl hl
          · exact Or.inr (by simp [summaryGet, h2, hr])

/-- An invariant preserved by every successful step of a monadic fold over
Except is preserved by the whole fold. -/
theorem foldlM_except_inv {α σ ε : Type} (P : σ → Prop) (f : σ → α → Except ε σ)
    (hf : ∀ s a s', P s → f s a = Except.ok s' → P s') :
    ∀ (l : List α) (s s' : σ), P s → l.foldlM f s = Except.ok s' → P s' := by
  intro l
  induction l with
  | nil =>
      intro s s' hP hres
      have : Except.ok s = Except.ok s' := hres
      cases this
      exact hP
  | cons a l ih =>
      intro s s' hP hres
      have hstep : List.foldlM f s (a :: l) = f s a >>= fun s1 => List.foldlM f s1 l := rfl
      rw [hstep] at hres
      cases hfa : f s a with
      | error e => rw [hfa] at hres; cases hres
      | ok s1 =>
          rw [hfa] at hres
          have hres' : List.foldlM f s1 l = Except.ok s' := hres
          exact ih s1 s' (hf s a s1 hP hfa) hres'

/-- Processing one dict entry whose effective severity is the string L
(reported, or the UNKNOWN default when missing) increments the bucket keyed
L and the running total, leaving every other string bucket unchanged. -/
theorem countVuln_str_sev (s : Summary) (kvs : List (String × JVal)) (L : String) (t : Int)
    (hsev : (olookup "Severity" kvs).getD (JVal.str "UNKNOWN") = JVal.str L)
    (hL : L ≠ "total")
    (ht : summaryGet s (JVal.str "total") = some t) :
    ∃ s', countVuln s (JVal.obj kvs) = Except.ok s'
      ∧ summaryGet s' (JVal.str L) = some ((summaryGet s (JVal.str L)).getD 0 + 1)
      ∧ summaryGet s' (JVal.str "total") = some (t + 1)
      ∧ ∀ M : String, M ≠ L → M ≠ "total" →
          summaryGet s' (JVal.str M) = summaryGet s (JVal.str M) := by
  have hh : jHashable (JVal.str L) = true := rfl
  have h1 : summaryGet (summarySet s (JVal.str L) ((summaryGet s (JVal.str L)).getD 0 + 1))
      (JVal.str "total") = some t := by
    rw [summaryGet_summarySet_str_ne s L "total" _ (fun he => hL he.symm)]
    exact ht
  have hrun : countVuln s (JVal.obj kvs) =
      Except.ok (summarySet
        (summarySet s (JVal.str L) ((summaryGet s (JVal.str L)).getD 0 + 1))
        (JVal.str "total") (t + 1)) := by
    simp only [countVuln]
    rw [hsev]
    simp [hh, h1]
  refine ⟨_, hrun, ?_, ?_, ?_⟩
  · rw [summaryGet_summarySet_str_ne _ "total" L _ hL]
    exact summaryGet_summarySet_self _ _ _ (by simp [jKeyEq])
  · exact summaryGet_summarySet_self _ _ _ (by simp [jKeyEq])
  · intro M hML hMt
    rw [summaryGet_summarySet_str_ne _ "total" M _ hMt]
    exact summaryGet_summarySet_str_ne _ L M _ hML

/-- Processing one well-formed vulnerability entry succeeds, keeps the five
buckets and total consistent, and grows the bucket sum by one. -/
theorem countVuln_bucketState (s : Summary) (v : JVal) (c h m l u : Int)
    (hv : wellFormedVuln v = true) (hb : bucketState s c h m l u) :
    ∃ s' c' h' m' l' u', countVuln s v = Except.ok s'
      ∧ bucketState s' c' h' m' l' u'
      ∧ c' + h' + m' + l' + u' = c + h + m + l + u + 1 := by
  obtain ⟨hc, hh2, hm, hl2, hu, htl⟩ := hb
  cases v with
  | obj kvs =>
      cases holo : olookup "Severity" kvs with
      | none =>
          obtain ⟨s', hrun, hg, ht', hfr⟩ :=
            countVuln_str_sev s kvs "UNKNOWN" (c + h + m + l + u) (by rw [holo]; rfl)
              (by decide) htl
          refine ⟨s', c, h, m, l, u + 1, hrun, ⟨?_, ?_, ?_, ?_, ?_, ?_⟩, by ring⟩
          · rw [hfr "CRITICAL" (by decide) (by decide)]; exact hc
          · rw [hfr "HIGH" (by decide) (by decide)]; exact hh2
          · rw [hfr "MEDIUM" (by decide) (by decide)]; exact hm
          · rw [hfr "LOW" (by decide) (by decide)]; exact hl2
          · rw [hg, hu]; simp
          · rw [ht']; congr 1; ring
      | some sv =>
          cases sv with
          | str L =>
              have hlab : isSeverityLabel L = true := by
                simpa [wellFormedVuln, holo] using hv
              have hL5 : L = "CRITICAL" ∨ L = "HIGH" ∨ L = "MEDIUM" ∨ L = "LOW" ∨
                  L = "UNKNOWN" := by
                simp [isSeverityLabel] at hlab
                tauto
              have hsev : (olookup "Severity" kvs).getD (JVal.str "UNKNOWN") = JVal.str L := by
                rw [holo]; rfl
              rcases hL5 with rfl | rfl | rfl | rfl | rfl
              · obtain ⟨s', hrun, hg, ht', hfr⟩ :=
                  countVuln_str_sev s kvs "CRITICAL" (c + h + m + l + u) hsev (by decide) htl
                refine ⟨s', c + 1, h, m, l, u, hrun, ⟨?_, ?_, ?_, ?_, ?_, ?_⟩, by ring⟩
                · rw [hg, hc]; simp
                · rw [hfr "HIGH" (by decide) (by decide)]; exact hh2
                · rw [hfr "MEDIUM" (by decide) (by decide)]; exact hm
                · rw [hfr "LOW" (by decide) (by decide)]; exact hl2
                · rw [hfr "UNKNOWN" (by decide) (by decide)]; exact hu
                · rw [ht']; congr 1; ring
              · obtain ⟨s', hrun, hg, ht', hfr⟩ :=
                  countVuln_str_sev s kvs "HIGH" (c + h + m + l + u) hsev (by decide) htl
                refine ⟨s', c, h + 1, m, l, u, hrun, ⟨?_, ?_, ?_, ?_, ?_, ?_⟩, by ring⟩
                · rw [hfr "CRITICAL" (by decide) (by decide)]; exact hc
                · rw [hg, hh2]; simp
                · rw [hfr "MEDIUM" (by decide) (by decide)]; exact hm
                · rw [hfr "LOW" (by decide) (by decide)]; exact hl2
                · rw [hfr "UNKNOWN" (by decide) (by decide)]; exact hu
                · rw [ht']; congr 1; ring
              · obtain ⟨s', hrun, hg, ht', hfr⟩ :=
                  countVuln_str_sev s kvs "MEDIUM" (c + h + m + l + u) hsev (by decide) htl
                refine ⟨s', c, h, m + 1, l, u, hrun, ⟨?_, ?_, ?_, ?_, ?_, ?_⟩, by ring⟩
                · rw [hfr "CRITICAL" (by decide) (by decide)]; exact hc
                · rw [hfr "HIGH" (by decide) (by decide)]; exact hh2
                · rw [hg, hm]; simp
                · rw [hfr "LOW" (by decide) (by decide)]; exact hl2
                · rw [hfr "UNKNOWN" (by decide) (by decide)]; exact hu
                · rw [ht']; congr 1; ring
              · obtain ⟨s', hrun, hg, ht', hfr⟩ :=
                  countVuln_str_sev s kvs "LOW" (c + h + m + l + u) hsev (by decide) htl
                refine ⟨s', c, h, m, l + 1, u, hrun, ⟨?_, ?_, ?_, ?_, ?_, ?_⟩, by ring⟩
                · rw [hfr "CRITICAL" (by decide) (by decide)]; exact hc
                · rw [hfr "HIGH" (by decide) (by decide)]; exact hh2
                · rw [hfr "MEDIUM" (by decide) (by decide)]; exact hm
                · rw [hg, hl2]; simp
                · rw [hfr "UNKNOWN" (by decide) (by decide)]; exact hu
                · rw [ht']; congr 1; ring
              · obtain ⟨s', hrun, hg, ht', hfr⟩ :=
                  countVuln_str_sev s kvs "UNKNOWN" (c + h + m + l + u) hsev (by decide) htl
                refine ⟨s', c, h, m, l, u + 1, hrun, ⟨?_, ?_, ?_, ?_, ?_, ?_⟩, by ring⟩
                · rw [hfr "CRITICAL" (by decide) (by decide)]; exact hc
                · rw [hfr "HIGH" (by decide) (by decide)]; exact hh2
                · rw [hfr "MEDIUM" (by decide) (by decide)]; exact hm
                · rw [hfr "LOW" (by decide) (by decide)]; exact hl2
                · rw [hg, hu]; simp
                · rw [ht']; congr 1; ring
          | null => simp [wellFormedVuln, holo] at hv
          | bool b => simp [wellFormedVuln, holo] at hv
          | num n => simp [wellFormedVuln, holo] at hv
          | arr xs => simp [wellFormedVuln, holo] at hv
          | obj kvs2 => simp [wellFormedVuln, holo] at hv
  | null => simp [wellFormedVuln] at hv
  | bool b => simp [wellFormedVuln] at hv
  | num n => simp [wellFormedVuln] at hv
  | str s2 => simp [wellFormedVuln] at hv
  | arr xs => simp [wellFormedVuln] at hv

/-- Folding the inner loop over well-formed vulnerability entries keeps the
buckets consistent and grows the bucket sum by the number of entries. -/
theorem foldlM_countVuln_wf (vs : List JVal) :
    vs.all wellFormedVuln = true →
    ∀ (s : Summary) (c h m l u : Int), bucketState s c h m l u →
    ∃ s' c' h' m' l' u', vs.foldlM countVuln s = Except.ok s'
      ∧ bucketState s' c' h' m' l' u'
      ∧ c' + h' + m' + l' + u' = c + h + m + l + u + (vs.length : Int) := by
  induction vs with
  | nil =>
      intro _ s c h m l u hb
      exact ⟨s, c, h, m, l, u, rfl, hb, by simp⟩
  | cons v vs ih =>
      intro hall s c h m l u hb
      rw [List.all_cons, Bool.and_eq_true] at hall
      have hv : wellFormedVuln v = true := hall.1
      have hvs : vs.all wellFormedVuln = true := hall.2
      obtain ⟨s1, c1, h1, m1, l1, u1, hrun, hb1, hsum1⟩ :=
        countVuln_bucketState s v c h m l u hv hb
      obtain ⟨s', c', h', m', l', u', hrun', hb', hsum'⟩ :=
        ih hvs s1 c1 h1 m1 l1 u1 hb1
      refine ⟨s', c', h', m', l', u', ?_, hb', ?_⟩
      · have hstep : List.foldlM countVuln s (v :: vs) =
            countVuln s v >>= fun s2 => List.foldlM countVuln s2 vs := rfl
        rw [hstep, hrun]
        exact hrun'
      · simp only [List.length_cons, Nat.cast_add, Nat.cast_one]
        omega

/-- Processing one well-formed per-target result entry succeeds, keeps the
buckets consistent and grows the bucket sum by its vulnerability count. -/
theorem countResult_wf (r : JVal) (hr : wellFormedResult r = true)
    (s : Summary) (c h m l u : Int) (hb : bucketState s c h m l u) :
    ∃ s' c' h' m' l' u', countResult s r = Except.ok s'
      ∧ bucketState s' c' h' m' l' u'
      ∧ c' + h' + m' + l' + u' = c + h + m + l + u + (resultVulnCount r : Int) := by
  cases r with
  | obj kvs =>
      cases holo : olookup "Vulnerabilities" kvs with
      | none =>
          refine ⟨s, c, h, m, l, u, ?_, hb, by simp [resultVulnCount, holo]⟩
          simp [countResult, jContains, holo]
      | some vulns =>
          cases vulns with
          | arr vs =>
              have hall : vs.all wellFormedVuln = true := by
                simpa [wellFormedResult, holo] using hr
              cases vs with
              | nil =>
                  refine ⟨s, c, h, m, l, u, ?_, hb, by simp [resultVulnCount, holo]⟩
                  simp [countResult, jContains, jSubscript, holo, jFalsy]
              | cons v vs' =>
                  obtain ⟨s', c', h', m', l', u', hrun, hb', hsum⟩ :=
                    foldlM_countVuln_wf (v :: vs') hall s c h m l u hb
                  refine ⟨s', c', h', m', l', u', ?_, hb', ?_⟩
                  · simpa [countResult, jContains, jSubscript, holo, jFalsy, jIter] using hrun
                  · rw [hsum]; simp [resultVulnCount, holo]
          | null => simp [wellFormedResult, holo] at hr
          | bool b => simp [wellFormedResult, holo] at hr
          | num n => simp [wellFormedResult, holo] at hr
          | str s2 => simp [wellFormedResult, holo] at hr
          | obj kvs2 => simp [wellFormedResult, holo] at hr
  | null => simp [wellFormedResult] at hr
  | bool b => simp [wellFormedResult] at hr
  | num n => simp [wellFormedResult] at hr
  | str s2 => simp [wellFormedResult] at hr
  | arr xs => simp [wellFormedResult] at hr

/-- Folding the outer loop over well-formed result entries keeps the buckets
consistent and grows the bucket sum by the total vulnerability count. -/
theorem foldlM_countResult_wf (rs : List JVal) :
    rs.all wellFormedResult = true →
    ∀ (s : Summary) (c h m l u : Int), bucketState s c h m l u →
    ∃ s' c' h' m' l' u', rs.foldlM countResult s = Except.ok s'
      ∧ bucketState s' c' h' m' l' u'
      ∧ c' + h' + m' + l' + u' =
          c + h + m + l + u + ((rs.map resultVulnCount).sum : Int) := by
  induction rs with
  | nil =>
      intro _ s c h m l u hb
      exact ⟨s, c, h, m, l, u, rfl, hb, by simp⟩
  | cons r rs ih =>
      intro hall s c h m l u hb
      rw [List.all_cons, Bool.and_eq_true] at hall
      have hr : wellFormedResult r = true := hall.1
      have hrs : rs.all wellFormedResult = true := hall.2
      obtain ⟨s1, c1, h1, m1, l1, u1, hrun, hb1, hsum1⟩ :=
        countResult_wf r hr s c h m l u hb
      obtain ⟨s', c', h', m', l', u', hrun', hb', hsum'⟩ :=
        ih hrs s1 c1 h1 m1 l1 u1 hb1
      refine ⟨s', c', h', m', l', u', ?_, hb', ?_⟩
      · have hstep : List.foldlM countResult s (r :: rs) =
            countResult s r >>= fun s2 => List.foldlM countResult s2 rs := rfl
        rw [hstep, hrun]
        exact hrun'
      · simp only [List.map_cons, List.sum_cons, Nat.cast_add]
        omega

/-- A dict with a member under some key is not empty. -/
theorem olookup_isSome_not_isEmpty (key : String) (kvs : List (String × JVal)) (v : JVal)
    (h : olookup key kvs = some v) : kvs.isEmpty = false := by
  cases kvs with
  | nil => simp [olookup] at h
  | cons a rest => rfl

/-- C3: for every well-formed structured scan result, get_vulnerability_summary
succeeds and returns a summary whose total field equals the sum of its five
severity buckets, which in turn equals the number of vulnerability entries
across all result targets. -/
theorem get_vulnerability_summary_total_consistent (j : JVal)
    (hwf : wellFormedScan j = true) :
    ∃ s c h m l u, get_vulnerability_summary j = Except.ok s
      ∧ summaryGet s (JVal.str "CRITICAL") = some c
      ∧ summaryGet s (JVal.str "HIGH") = some h
      ∧ summaryGet s (JVal.str "MEDIUM") = some m
      ∧ summaryGet s (JVal.str "LOW") = some l
      ∧ summaryGet s (JVal.str "UNKNOWN") = some u
      ∧ summaryGet s (JVal.str "total") = some (c + h + m + l + u)
      ∧ c + h + m + l + u = (totalVulnCount j : Int) := by
  cases j with
  | obj kvs =>
      cases hres : olookup "Results" kvs with
      | none => simp [wellFormedScan, hres] at hwf
      | some rv =>
          cases rv with
          | arr rs =>
              have hall : rs.all wellFormedResult = true := by
                simpa [wellFormedScan, hres] using hwf
              have hb0 : bucketState initialSummary 0 0 0 0 0 := by
                refine ⟨rfl, rfl, rfl, rfl, rfl, by decide⟩
              obtain ⟨s', c', h', m', l', u', hrun, hb', hsum⟩ :=
                foldlM_countResult_wf rs hall initialSummary 0 0 0 0 0 hb0
              have hempty : kvs.isEmpty = false := olookup_isSome_not_isEmpty _ _ _ hres
              have hgo : get_vulnerability_summary (JVal.obj kvs) =
                  rs.foldlM countResult initialSummary := by
                simp [get_vulnerability_summary, jFalsy, hempty, jContains, hres,
                  jSubscript, jIter]
              obtain ⟨hc, hh2, hm, hl2, hu, htl⟩ := hb'
              refine ⟨s', c', h', m', l', u', by rw [hgo]; exact hrun,
                hc, hh2, hm, hl2, hu, htl, ?_⟩
              rw [hsum]
              simp [totalVulnCount, hres]
          | null => simp [wellFormedScan, hres] at hwf
          | bool b => simp [wellFormedScan, hres] at hwf
          | num n => simp [wellFormedScan, hres] at hwf
          | str s2 => simp [wellFormedScan, hres] at hwf
          | obj kvs2 => simp [wellFormedScan, hres] at hwf
  | null => simp [wellFormedScan] at hwf
  | bool b => simp [wellFormedScan] at hwf
  | num n => simp [wellFormedScan] at hwf
  | str s2 => simp [wellFormedScan] at hwf
  | arr xs => simp [wellFormedScan] at hwf

/-- Witness for C3 on a concrete fixture with three vulnerability entries. -/
theorem get_vulnerability_summary_total_consistent_witness :
    wellFormedScan scanFixture = true ∧
    (∃ s c h m l u, get_vulnerability_summary scanFixture = Except.ok s
      ∧ summaryGet s (JVal.str "CRITICAL") = some c
      ∧ summaryGet s (JVal.str "HIGH") = some h
      ∧ summaryGet s (JVal.str "MEDIUM") = some m
      ∧ summaryGet s (JVal.str "LOW") = some l
      ∧ summaryGet s (JVal.str "UNKNOWN") = some u
      ∧ summaryGet s (JVal.str "total") = some (c + h + m + l + u)
      ∧ c + h + m + l + u = (totalVulnCount scanFixture : Int)) :=
  ⟨rfl, get_vulnerability_summary_total_consistent scanFixture rfl⟩

/-- C4 counterexample: a malformed input carrying a non-iterable "Results"
member makes get_vulnerability_summary raise TypeError instead of returning
the all-zero summary, so the function is not total on malformed input. -/
theorem get_vulnerability_summary_raises_on_malformed :
    get_vulnerability_summary (JVal.obj [("Results", JVal.num 5)]) =
      Except.error PyErr.typeError := rfl

/-- C4 amended: every input that is falsy (absent or empty) or that has no
"Results" member yields the all-zero summary without raising; inputs whose
"Results" member is malformed are outside this guarantee. -/
theorem get_vulnerability_summary_lenient_default (j : JVal)
    (h : jFalsy j = true ∨ jContains j "Results" = Except.ok false) :
    get_vulnerability_summary j = Except.ok initialSummary := by
  rcases h with hf | hc
  · simp [get_vulnerability_summary, hf]
  · by_cases hf : jFalsy j = true
    · simp [get_vulnerability_summary, hf]
    · unfold get_vulnerability_summary
      rw [if_neg hf, hc]

/-- Witness for the amended C4 at the absent input. -/
theorem get_vulnerability_summary_lenient_default_witness :
    get_vulnerability_summary JVal.null = Except.ok initialSummary :=
  get_vulnerability_summary_lenient_default JVal.null (Or.inl rfl)

/-- C5 counterexample: an entry whose severity label INFO is not one of the
five buckets is counted under a fresh INFO key, while the UNKNOWN bucket
stays zero. -/
theorem unrecognized_severity_gets_own_bucket :
    get_vulnerability_summary infoSeverityFixture =
      Except.ok [(JVal.str "CRITICAL", 0), (JVal.str "HIGH", 0), (JVal.str "MEDIUM", 0),
        (JVal.str "LOW", 0), (JVal.str "UNKNOWN", 0), (JVal.str "total", 1),
        (JVal.str "INFO", 1)]
    ∧ summaryGet [(JVal.str "CRITICAL", 0), (JVal.str "HIGH", 0), (JVal.str "MEDIUM", 0),
        (JVal.str "LOW", 0), (JVal.str "UNKNOWN", 0), (JVal.str "total", 1),
        (JVal.str "INFO", 1)] (JVal.str "UNKNOWN") = some 0
    ∧ summaryGet [(JVal.str "CRITICAL", 0), (JVal.str "HIGH", 0), (JVal.str "MEDIUM", 0),
        (JVal.str "LOW", 0), (JVal.str "UNKNOWN", 0), (JVal.str "total", 1),
        (JVal.str "INFO", 1)] (JVal.str "INFO") = some 1 :=
  ⟨rfl, rfl, rfl⟩

/-- C5 amended: processing one vulnerability entry increments the bucket
keyed by the entry's effective severity string (the reported severity, or
UNKNOWN when missing) and the total exactly once, leaving every other string
bucket unchanged; a reported label outside the five buckets therefore gets
its own bucket rather than the UNKNOWN one. -/
theorem countVuln_bucket_selection (s : Summary) (kvs : List (String × JVal))
    (L : String) (t : Int)
    (hL : L ≠ "total") (ht : summaryGet s (JVal.str "total") = some t)
    (hcase : olookup "Severity" kvs = some (JVal.str L) ∨
      (olookup "Severity" kvs = none ∧ L = "UNKNOWN")) :
    ∃ s', countVuln s (JVal.obj kvs) = Except.ok s'
      ∧ summaryGet s' (JVal.str L) = some ((summaryGet s (JVal.str L)).getD 0 + 1)
      ∧ summaryGet s' (JVal.str "total") = some (t + 1)
      ∧ ∀ M : String, M ≠ L → M ≠ "total" →
          summaryGet s' (JVal.str M) = summaryGet s (JVal.str M) := by
  have hsev : (olookup "Severity" kvs).getD (JVal.str "UNKNOWN") = JVal.str L := by
    rcases hcase with hs | ⟨hn, rfl⟩
    · rw [hs]; rfl
    · rw [hn]; rfl
  exact countVuln_str_sev s kvs L t hsev hL ht

/-- Witness for the amended C5 on a concrete entry with severity HIGH. -/
theorem countVuln_bucket_selection_witness :
    ("HIGH" : String) ≠ "total" ∧
    summaryGet initialSummary (JVal.str "total") = some 0 ∧
    (∃ s', countVuln initialSummary (JVal.obj [("Severity", JVal.str "HIGH")]) = Except.ok s'
      ∧ summaryGet s' (JVal.str "HIGH") =
          some ((summaryGet initialSummary (JVal.str "HIGH")).getD 0 + 1)
      ∧ summaryGet s' (JVal.str "total") = some (0 + 1)
      ∧ ∀ M : String, M ≠ "HIGH" → M ≠ "total" →
          summaryGet s' (JVal.str M) = summaryGet initialSummary (JVal.str M)) :=
  ⟨by decide, rfl,
    countVuln_bucket_selection initialSummary [("Severity", JVal.str "HIGH")] "HIGH" 0
      (by decide) rfl (Or.inl rfl)⟩

/-- Every successful run of the inner loop body stores through exactly two
dict writes: the severity bucket and then the total. -/
theorem countVuln_ok_shape (s : Summary) (kvs : List (String × JVal)) (s' : Summary)
    (h : countVuln s (JVal.obj kvs) = Except.ok s') :
    ∃ sev t,
      summaryGet (summarySet s sev ((summaryGet s sev).getD 0 + 1)) (JVal.str "total") = some t
      ∧ s' = summarySet (summarySet s sev ((summaryGet s sev).getD 0 + 1))
          (JVal.str "total") (t + 1) := by
  simp only [countVuln] at h
  by_cases hh : jHashable ((olookup "Severity" kvs).getD (JVal.str "UNKNOWN")) = true
  · rw [if_pos hh] at h
    cases htv : summaryGet
        (summarySet s ((olookup "Severity" kvs).getD (JVal.str "UNKNOWN"))
          ((summaryGet s ((olookup "Severity" kvs).getD (JVal.str "UNKNOWN"))).getD 0 + 1))
        (JVal.str "total") with
    | none => rw [htv] at h; cases h
    | some t =>
        rw [htv] at h
        cases h
        exact ⟨_, t, htv, rfl⟩
  · rw [if_neg hh] at h
    cases h

/-- The inner loop body preserves the summary invariant. -/
theorem countVuln_summaryInv (s : Summary) (v : JVal) (s' : Summary)
    (hP : summaryInv s) (h : countVuln s v = Except.ok s') : summaryInv s' := by
  cases v with
  | obj kvs =>
      obtain ⟨sev, t, htv, rfl⟩ := countVuln_ok_shape s kvs s' h
      obtain ⟨h1, h2, h3, h4, h5, h6, hvals⟩ := hP
      have hg0 : 0 ≤ (summaryGet s sev).getD 0 := by
        cases hgs : summaryGet s sev with
        | none => simp
        | some w => simpa using hvals sev w hgs
      have ht0 : 0 ≤ t := by
        rcases summaryGet_summarySet_cases s sev _ (JVal.str "total") t htv with hteq | hold
        · omega
        · exact hvals _ _ hold
      refine ⟨?_, ?_, ?_, ?_, ?_, ?_, ?_⟩
      · exact summaryGet_summarySet_isSome _ _ _ _ (summaryGet_summarySet_isSome _ _ _ _ h1)
      · exact summaryGet_summarySet_isSome _ _ _ _ (summaryGet_summarySet_isSome _ _ _ _ h2)
      · exact summaryGet_summarySet_isSome _ _ _ _ (summaryGet_summarySet_isSome _ _ _ _ h3)
      · exact summaryGet_summarySet_isSome _ _ _ _ (summaryGet_summarySet_isSome _ _ _ _ h4)
      · exact summaryGet_summarySet_isSome _ _ _ _ (summaryGet_summarySet_isSome _ _ _ _ h5)
      · exact summaryGet_summarySet_isSome _ _ _ _ (summaryGet_summarySet_isSome _ _ _ _ h6)
      · intro k w hkw
        rcases summaryGet_summarySet_cases _ _ _ _ _ hkw with hw1 | hold1
        · omega
        rcases summaryGet_summarySet_cases _ _ _ _ _ hold1 with hw2 | hold2
        · omega
        · exact hvals _ _ hold2
  | null => simp [countVuln] at h
  | bool b => simp [countVuln] at h
  | num n => simp [countVuln] at h
  | str s2 => simp [countVuln] at h
  | arr xs => simp [countVuln] at h

/-- The outer loop body preserves the summary invariant. -/
theorem countResult_summaryInv (s : Summary) (r : JVal) (s' : Summary)
    (hP : summaryInv s) (h : countResult s r = Except.ok s') : summaryInv s' := by
  simp only [countResult] at h
  split at h
  · cases h
  · cases h; exact hP
  · split at h
    · cases h
    · split at h
      · cases h; exact hP
      · split at h
        · cases h
        · exact foldlM_except_inv summaryInv countVuln
            (fun a b c hp hc => countVuln_summaryInv a b c hp hc) _ _ _ hP h

/-- The initialized summary satisfies the summary invariant. -/
theorem initialSummary_summaryInv : summaryInv initialSummary := by
  refine ⟨rfl, rfl, rfl, rfl, rfl, rfl, ?_⟩
  intro k v hkv
  simp only [initialSummary, summaryGet] at hkv
  repeat' split at hkv
  all_goals simp_all

/-- Every summary returned by get_vulnerability_summary satisfies the
summary invariant. -/
theorem get_vulnerability_summary_summaryInv (j : JVal) (s : Summary)
    (h : get_vulnerability_summary j = Except.ok s) : summaryInv s := by
  simp only [get_vulnerability_summary] at h
  split at h
  · cases h; exact initialSummary_summaryInv
  · split at h
    · cases h
    · cases h; exact initialSummary_summaryInv
    · split at h
      · cases h
      · split at h
        · cases h
        · exact foldlM_except_inv summaryInv countResult
            (fun a b c hp hc => countResult_summaryInv a b c hp hc)
            _ _ _ initialSummary_summaryInv h

/-- C10: every summary that get_vulnerability_summary returns binds at least
the five severity keys and the total key, each to a non-negative count. -/
theorem get_vulnerability_summary_fixed_keys (j : JVal) (s : Summary)
    (h : get_vulnerability_summary j = Except.ok s) :
    ∀ k, k ∈ ["CRITICAL", "HIGH", "MEDIUM", "LOW", "UNKNOWN", "total"] →
      ∃ v : Int, summaryGet s (JVal.str k) = some v ∧ 0 ≤ v := by
  obtain ⟨h1, h2, h3, h4, h5, h6, hvals⟩ := get_vulnerability_summary_summaryInv j s h
  intro k hk
  fin_cases hk
  · rcases Option.isSome_iff_exists.mp h1 with ⟨v, hv⟩; exact ⟨v, hv, hvals _ _ hv⟩
  · rcases Option.isSome_iff_exists.mp h2 with ⟨v, hv⟩; exact ⟨v, hv, hvals _ _ hv⟩
  · rcases Option.isSome_iff_exists.mp h3 with ⟨v, hv⟩; exact ⟨v, hv, hvals _ _ hv⟩
  · rcases Option.isSome_iff_exists.mp h4 with ⟨v, hv⟩; exact ⟨v, hv, hvals _ _ hv⟩
  · rcases Option.isSome_iff_exists.mp h5 with ⟨v, hv⟩; exact ⟨v, hv, hvals _ _ hv⟩
  · rcases Option.isSome_iff_exists.mp h6 with ⟨v, hv⟩; exact ⟨v, hv, hvals _ _ hv⟩

/-- Witness for C10 at the absent input. -/
theorem get_vulnerability_summary_fixed_keys_witness :
    get_vulnerability_summary JVal.null = Except.ok initialSummary ∧
    (∃ v : Int, summaryGet initialSummary (JVal.str "total") = some v ∧ 0 ≤ v) :=
  ⟨rfl, get_vulnerability_summary_fixed_keys JVal.null initialSummary rfl "total" (by simp)⟩

/-- An argument pair deeper in a command line still occurs in it. -/
theorem hasArgSeq_cons (a : String) (args cmd : List String)
    (h : hasArgSeq args cmd) : hasArgSeq args (a :: cmd) := by
  obtain ⟨p, t, rfl⟩ := h
  exact ⟨a :: p, t, rfl⟩

/-- An argument pair in the tail of an appended command line occurs in it. -/
theorem hasArgSeq_append (pre args cmd : List String)
    (h : hasArgSeq args cmd) : hasArgSeq args (pre ++ cmd) := by
  obtain ⟨p, t, rfl⟩ := h
  exact ⟨pre ++ p, t, by simp [List.append_assoc]⟩

/-- With a staged database, scan_image invokes exactly the built command. -/
theorem scan_image_invoked_of_db (st : ScannerState) (run : List String → ProcResult)
    (json_loads : String → Option JVal) (image format : String)
    (sev : Option (List String)) (out : Option String) (vt : Option (List String))
    (hdb : st.db_exists = true) (hemp : st.db_entries.isEmpty = false) :
    (scan_image st run json_loads image format sev out vt).invoked =
      [buildScanCmd st format sev vt image] := by
  have hguard : (!st.db_exists || st.db_entries.isEmpty) = false := by
    simp [hdb, hemp]
  simp only [scan_image, hguard]
  rw [if_neg Bool.false_ne_true]
  split
  · rfl
  · split
    · split <;> rfl
    · rfl

/-- C1: whenever the database precondition holds, scan_image runs exactly the
built docker command, which mounts the docker socket read-only, the cache
directory read-write, the database directory read-only, sets the cache,
file-scheme database repository and skip-update environment variables,
passes the requested format, the comma-joined severity and vuln-type filters
when present, and ends with the image reference. -/
theorem scan_image_offline_invocation (st : ScannerState) (run : List String → ProcResult)
    (json_loads : String → Option JVal) (image format : String)
    (sev vt : Option (List String)) (out : Option String)
    (hdb : st.db_exists = true) (hne : st.db_entries ≠ []) :
    (scan_image st run json_loads image format sev out vt).invoked =
        [buildScanCmd st format sev vt image]
    ∧ hasArgSeq ["-v", "/var/run/docker.sock:/var/run/docker.sock:ro"]
        (buildScanCmd st format sev vt image)
    ∧ hasArgSeq ["-v", st.cache_path ++ ":/root/.cache/trivy"]
        (buildScanCmd st format sev vt image)
    ∧ hasArgSeq ["-v", st.db_path ++ ":/trivy-db:ro"]
        (buildScanCmd st format sev vt image)
    ∧ hasArgSeq ["-e", "TRIVY_CACHE_DIR=/root/.cache/trivy"]
        (buildScanCmd st format sev vt image)
    ∧ hasArgSeq ["-e", "TRIVY_DB_REPOSITORY=file:///trivy-db"]
        (buildScanCmd st format sev vt image)
    ∧ hasArgSeq ["-e", "TRIVY_SKIP_UPDATE=true"]
        (buildScanCmd st format sev vt image)
    ∧ hasArgSeq ["--format", format] (buildScanCmd st format sev vt image)
    ∧ (∀ L, sev = some L → L ≠ [] →
        hasArgSeq ["--severity", String.intercalate "," L]
          (buildScanCmd st format sev vt image))
    ∧ (∀ L, vt = some L → L ≠ [] →
        hasArgSeq ["--vuln-type", String.intercalate "," L]
          (buildScanCmd st format sev vt image))
    ∧ (∃ p, buildScanCmd st format sev vt image = p ++ [image]) := by
  have hemp : st.db_entries.isEmpty = false := by
    cases hE : st.db_entries with
    | nil => exact absurd hE hne
    | cons a as => rfl
  refine ⟨scan_image_invoked_of_db st run json_loads image format sev out vt hdb hemp,
    ?_, ?_, ?_, ?_, ?_, ?_, ?_, ?_, ?_, ?_⟩
  · simp only [buildScanCmd, List.cons_append, List.nil_append]
    repeat' first
      | exact ⟨[], _, rfl⟩
      | apply hasArgSeq_cons
  · simp only [buildScanCmd, List.cons_append, List.nil_append]
    repeat' first
      | exact ⟨[], _, rfl⟩
      | apply hasArgSeq_cons
  · simp only [buildScanCmd, List.cons_append, List.nil_append]
    repeat' first
      | exact ⟨[], _, rfl⟩
      | apply hasArgSeq_cons
  · simp only [buildScanCmd, List.cons_append, List.nil_append]
    repeat' first
      | exact ⟨[], _, rfl⟩
      | apply hasArgSeq_cons
  · simp only [buildScanCmd, List.cons_append, List.nil_append]
    repeat' first
      | exact ⟨[], _, rfl⟩
      | apply hasArgSeq_cons
  · simp only [buildScanCmd, List.cons_append, List.nil_append]
    repeat' first
      | exact ⟨[], _, rfl⟩
      | apply hasArgSeq_cons
  · simp only [buildScanCmd, List.cons_append, List.nil_append]
    repeat' first
      | exact ⟨[], _, rfl⟩
      | apply hasArgSeq_cons
  · intro L hLs hLne
    subst hLs
    have hLemp : L.isEmpty = false := by
      cases L with
      | nil => exact absurd rfl hLne
      | cons a as => rfl
    simp only [buildScanCmd, severityArgs, hLemp, Bool.false_eq_true, if_false,
      List.cons_append, List.nil_append]
    repeat' first
      | exact ⟨[], _, rfl⟩
      | apply hasArgSeq_cons
  · intro L hLs hLne
    subst hLs
    have hLemp : L.isEmpty = false := by
      cases L with
      | nil => exact absurd rfl hLne
      | cons a as => rfl
    simp only [buildScanCmd, vulnTypeArgs, hLemp, Bool.false_eq_true, if_false,
      List.cons_append, List.nil_append]
    repeat' first
      | exact ⟨[], _, rfl⟩
      | apply hasArgSeq_cons
    apply hasArgSeq_append
    exact ⟨[], _, rfl⟩
  · exact ⟨["docker", "run", "--rm",
      "-v", "/var/run/docker.sock:/var/run/docker.sock:ro",
      "-v", st.cache_path ++ ":/root/.cache/trivy",
      "-v", st.db_path ++ ":/trivy-db:ro",
      "-e", "TRIVY_CACHE_DIR=/root/.cache/trivy",
      "-e", "TRIVY_DB_REPOSITORY=file:///trivy-db",
      "-e", "TRIVY_SKIP_UPDATE=true",
      "aquasec/trivy:latest", "image", "--format", format]
      ++ (severityArgs sev ++ vulnTypeArgs vt),
      by simp [buildScanCmd, List.append_assoc]⟩

/-- Witness for C1 on a concrete staged state and request. -/
theorem scan_image_offline_invocation_witness :
    (scan_image stEx runFailing jlNone "nginx:latest" "json"
        (some ["CRITICAL", "HIGH"]) none (some ["os"])).invoked =
        [buildScanCmd stEx "json" (some ["CRITICAL", "HIGH"]) (some ["os"]) "nginx:latest"]
    ∧ hasArgSeq ["-v", "/var/run/docker.sock:/var/run/docker.sock:ro"]
        (buildScanCmd stEx "json" (some ["CRITICAL", "HIGH"]) (some ["os"]) "nginx:latest")
    ∧ hasArgSeq ["-v", stEx.cache_path ++ ":/root/.cache/trivy"]
        (buildScanCmd stEx "json" (some ["CRITICAL", "HIGH"]) (some ["os"]) "nginx:latest")
    ∧ hasArgSeq ["-v", stEx.db_path ++ ":/trivy-db:ro"]
        (buildScanCmd stEx "json" (some ["CRITICAL", "HIGH"]) (some ["os"]) "nginx:latest")
    ∧ hasArgSeq ["-e", "TRIVY_CACHE_DIR=/root/.cache/trivy"]
        (buildScanCmd stEx "json" (some ["CRITICAL", "HIGH"]) (some ["os"]) "nginx:latest")
    ∧ hasArgSeq ["-e", "TRIVY_DB_REPOSITORY=file:///trivy-db"]
        (buildScanCmd stEx "json" (some ["CRITICAL", "HIGH"]) (some ["os"]) "nginx:latest")
    ∧ hasArgSeq ["-e", "TRIVY_SKIP_UPDATE=true"]
        (buildScanCmd stEx "json" (some ["CRITICAL", "HIGH"]) (some ["os"]) "nginx:latest")
    ∧ hasArgSeq ["--format", "json"]
        (buildScanCmd stEx "json" (some ["CRITICAL", "HIGH"]) (some ["os"]) "nginx:latest")
    ∧ (∀ L, some ["CRITICAL", "HIGH"] = some L → L ≠ [] →
        hasArgSeq ["--severity", String.intercalate "," L]
          (buildScanCmd stEx "json" (some ["CRITICAL", "HIGH"]) (some ["os"]) "nginx:latest"))
    ∧ (∀ L, some ["os"] = some L → L ≠ [] →
        hasArgSeq ["--vuln-type", String.intercalate "," L]
          (buildScanCmd stEx "json" (some ["CRITICAL", "HIGH"]) (some ["os"]) "nginx:latest"))
    ∧ (∃ p, buildScanCmd stEx "json" (some ["CRITICAL", "HIGH"]) (some ["os"]) "nginx:latest"
        = p ++ ["nginx:latest"]) :=
  scan_image_offline_invocation stEx runFailing jlNone "nginx:latest" "json"
    (some ["CRITICAL", "HIGH"]) (some ["os"]) none rfl (by decide)

/-- C2: scan_image returns the no-result sentinel without invoking any
external process when the database directory is absent or empty, and it
invokes the external process exactly when the directory exists and has at
least one entry. -/
theorem scan_image_database_precondition (st : ScannerState) (run : List String → ProcResult)
    (json_loads : String → Option JVal) (image format : String)
    (sev : Option (List String)) (out : Option String) (vt : Option (List String)) :
    ((st.db_exists = false ∨ st.db_entries = []) →
        (scan_image st run json_loads image format sev out vt).outcome = ScanOutcome.noResult
        ∧ (scan_image st run json_loads image format sev out vt).invoked = [])
    ∧ ((scan_image st run json_loads image format sev out vt).invoked ≠ [] ↔
        (st.db_exists = true ∧ st.db_entries ≠ [])) := by
  constructor
  · intro hbad
    have hguard : (!st.db_exists || st.db_entries.isEmpty) = true := by
      rcases hbad with hb | hb <;> simp [hb]
    constructor <;> simp [scan_image, hguard]
  · constructor
    · intro hinv
      constructor
      · by_contra hdb
        have hfalse : st.db_exists = false := by
          cases hb : st.db_exists
          · rfl
          · exact absurd hb hdb
        apply hinv
        simp [scan_image, hfalse]
      · intro hE
        apply hinv
        simp [scan_image, hE]
    · rintro ⟨hdb, hne⟩
      have hemp : st.db_entries.isEmpty = false := by
        cases hE : st.db_entries with
        | nil => exact absurd hE hne
        | cons a as => rfl
      rw [scan_image_invoked_of_db st run json_loads image format sev out vt hdb hemp]
      simp

/-- Witness for C2 on an empty database directory. -/
theorem scan_image_database_precondition_witness :
    ((scan_image stEmptyDb runFailing jlNone "nginx:latest" "json" none none none).outcome
        = ScanOutcome.noResult
      ∧ (scan_image stEmptyDb runFailing jlNone "nginx:latest" "json" none none none).invoked
        = [])
    ∧ ((scan_image stEmptyDb runFailing jlNone "nginx:latest" "json" none none none).invoked ≠ []
        ↔ (stEmptyDb.db_exists = true ∧ stEmptyDb.db_entries ≠ [])) :=
  ⟨(scan_image_database_precondition stEmptyDb runFailing jlNone "nginx:latest" "json"
      none none none).1 (Or.inr rfl),
   (scan_image_database_precondition stEmptyDb runFailing jlNone "nginx:latest" "json"
      none none none).2⟩

/-- C6 counterexample: with the json format, a zero exit whose stdout fails
to decode produces exactly the same None sentinel as a failed scan, so parse
failure is conflated with scan failure rather than surfaced distinctly. -/
theorem scan_image_parse_failure_same_sentinel :
    (scan_image stEx runBadStdout jlNone "nginx:latest" "json" none none none).outcome
      = ScanOutcome.noResult
    ∧ (scan_image stEx runFailing jlNone "nginx:latest" "json" none none none).outcome
      = ScanOutcome.noResult :=
  ⟨rfl, rfl⟩

/-- C6 amended: when the process exits zero with the json format and stdout
does not decode, the decode exception is swallowed by the blanket handler and
scan_image returns the None sentinel, the same value used for scan failure. -/
theorem scan_image_parse_failure_returns_none (st : ScannerState)
    (run : List String → ProcResult) (json_loads : String → Option JVal)
    (image : String) (sev : Option (List String)) (out : Option String)
    (vt : Option (List String))
    (hdb : st.db_exists = true) (hne : st.db_entries ≠ [])
    (hrc : (run (buildScanCmd st "json" sev vt image)).returncode = 0)
    (hparse : json_loads ((run (buildScanCmd st "json" sev vt image)).stdout) = none) :
    (scan_image st run json_loads image "json" sev out vt).outcome = ScanOutcome.noResult := by
  have hemp : st.db_entries.isEmpty = false := by
    cases hE : st.db_entries with
    | nil => exact absurd hE hne
    | cons a as => rfl
  simp [scan_image, hdb, hemp, hrc, hparse]

/-- Witness for the amended C6 on a concrete zero-exit unparseable run. -/
theorem scan_image_parse_failure_returns_none_witness :
    (scan_image stEx runBadStdout jlNone "alpine:3.18" "json" (some ["LOW"]) none none).outcome
      = ScanOutcome.noResult :=
  scan_image_parse_failure_returns_none stEx runBadStdout jlNone "alpine:3.18"
    (some ["LOW"]) none none rfl (by decide) rfl rfl

/-- C7: update_database leaves the database directory existing whenever it
existed before the call; a failed pull leaves the state untouched, and a
successful pull clears and immediately recreates the directory before any
extraction is attempted. -/
theorem update_database_preserves_db_dir (fs : DbFS) (pull_ok setup_pull_ok extract_ok : Bool)
    (copied : List String) (hdb : fs.db_exists = true) :
    ((update_database fs pull_ok setup_pull_ok extract_ok copied).2.db_exists = true)
    ∧ (pull_ok = false → (update_database fs pull_ok setup_pull_ok extract_ok copied).2 = fs)
    ∧ (pull_ok = true →
        update_database fs pull_ok setup_pull_ok extract_ok copied =
          setup_database (clearedDb fs) setup_pull_ok extract_ok copied
        ∧ (clearedDb fs).db_exists = true ∧ (clearedDb fs).db_entries = []) := by
  refine ⟨?_, ?_, ?_⟩
  · cases pull_ok with
    | false => simp [update_database, hdb]
    | true =>
        cases setup_pull_ok with
        | false => simp [update_database, setup_database, clearedDb, hdb]
        | true => cases extract_ok <;> simp [update_database, setup_database, clearedDb, hdb]
  · intro h
    subst h
    simp [update_database]
  · intro h
    subst h
    exact ⟨by simp [update_database], by simp [clearedDb, hdb], by simp [clearedDb, hdb]⟩

/-- Witness for C7 on a populated directory with a failing pull. -/
theorem update_database_preserves_db_dir_witness :
    ((update_database dbEx false true true ["db.new"]).2.db_exists = true)
    ∧ (false = false → (update_database dbEx false true true ["db.new"]).2 = dbEx)
    ∧ (false = true →
        update_database dbEx false true true ["db.new"] =
          setup_database (clearedDb dbEx) true true ["db.new"]
        ∧ (clearedDb dbEx).db_exists = true ∧ (clearedDb dbEx).db_entries = []) :=
  update_database_preserves_db_dir dbEx false true true ["db.new"] rfl

/-- Appending through the batch loop accumulates the images in call order. -/
theorem scanLoop_scanned (st : ScannerState) (run : List String → ProcResult)
    (json_loads : String → Option JVal) (format : String) (sev : Option (List String)) :
    ∀ (images : List String) (acc : List (String × ScanOutcome)) (scanned : List String),
      (scanLoop st run json_loads format sev images acc scanned).scanned =
        scanned ++ images := by
  intro images
  induction images with
  | nil => intro acc scanned; simp [scanLoop]
  | cons i rest ih =>
      intro acc scanned
      simp [scanLoop, ih]

/-- Inserting a key makes it readable. -/
theorem dictLookup_dictInsert_self (d : List (String × ScanOutcome)) (k : String)
    (v : ScanOutcome) : dictLookup k (dictInsert k v d) = some v := by
  induction d with
  | nil => simp [dictInsert, dictLookup]
  | cons kv rest ih =>
      obtain ⟨k', v'⟩ := kv
      by_cases h : k' = k
      · simp [dictInsert, dictLookup, h]
      · simp [dictInsert, dictLookup, h, ih]

/-- Inserting one key does not change reads at another. -/
theorem dictLookup_dictInsert_other (d : List (String × ScanOutcome)) (k k2 : String)
    (v : ScanOutcome) (h : k2 ≠ k) :
    dictLookup k2 (dictInsert k v d) = dictLookup k2 d := by
  have hkk2 : (k == k2) = false := beq_eq_false_iff_ne.mpr (fun hc => h hc.symm)
  induction d with
  | nil => simp [dictInsert, dictLookup, hkk2]
  | cons kv rest ih =>
      obtain ⟨k', v'⟩ := kv
      by_cases h1 : k' = k
      · have hset : dictInsert k v ((k', v') :: rest) = (k', v) :: rest := by
          simp [dictInsert, h1]
        have hk'2 : (k' == k2) = false := by rw [h1]; exact hkk2
        rw [hset]
        simp [dictLookup, hk'2]
      · have hset : dictInsert k v ((k', v') :: rest) = (k', v') :: dictInsert k v rest := by
          simp [dictInsert, h1]
        rw [hset]
        by_cases h2 : (k' == k2) = true
        · simp [dictLookup, h2]
        · simp [dictLookup, h2, ih]

/-- The batch loop never touches keys outside the remaining image list. -/
theorem scanLoop_lookup_not_mem (st : ScannerState) (run : List String → ProcResult)
    (json_loads : String → Option JVal) (format : String) (sev : Option (List String)) :
    ∀ (images : List String) (acc : List (String × ScanOutcome)) (scanned : List String)
      (k : String), k ∉ images →
      dictLookup k (scanLoop st run json_loads format sev images acc scanned).results =
        dictLookup k acc := by
  intro images
  induction images with
  | nil => intro acc scanned k _; rfl
  | cons i rest ih =>
      intro acc scanned k hk
      have hki : k ≠ i := fun hc => hk (by rw [hc]; exact List.mem_cons_self i rest)
      have hkr : k ∉ rest := fun hc => hk (List.mem_cons_of_mem i hc)
      have hstep : scanLoop st run json_loads format sev (i :: rest) acc scanned =
          scanLoop st run json_loads format sev rest
            (dictInsert i ((scan_image st run json_loads i format sev none none).outcome) acc)
            (scanned ++ [i]) := rfl
      rw [hstep, ih _ _ k hkr, dictLookup_dictInsert_other acc i k _ hki]

/-- Every listed image ends bound to its own scan outcome. -/
theorem scanLoop_lookup_mem (st : ScannerState) (run : List String → ProcResult)
    (json_loads : String → Option JVal) (format : String) (sev : Option (List String)) :
    ∀ (images : List String) (acc : List (String × ScanOutcome)) (scanned : List String)
      (k : String), k ∈ images →
      dictLookup k (scanLoop st run json_loads format sev images acc scanned).results =
        some ((scan_image st run json_loads k format sev none none).outcome) := by
  intro images
  induction images with
  | nil => intro acc scanned k hk; simp at hk
  | cons i rest ih =>
      intro acc scanned k hk
      by_cases hmem : k ∈ rest
      · have hstep : scanLoop st run json_loads format sev (i :: rest) acc scanned =
            scanLoop st run json_loads format sev rest
              (dictInsert i ((scan_image st run json_loads i format sev none none).outcome) acc)
              (scanned ++ [i]) := rfl
        rw [hstep]
        exact ih _ _ k hmem
      · have hk_eq : k = i := by
          rcases List.mem_cons.mp hk with h | h
          · exact h
          · exact absurd h hmem
        subst hk_eq
        have hstep : scanLoop st run json_loads format sev (k :: rest) acc scanned =
            scanLoop st run json_loads format sev rest
              (dictInsert k ((scan_image st run json_loads k format sev none none).outcome) acc)
              (scanned ++ [k]) := rfl
        rw [hstep, scanLoop_lookup_not_mem st run json_loads format sev rest _ _ k hmem,
          dictLookup_dictInsert_self acc k _]

/-- C8: scan_multiple_images walks the whole image list in order, invoking
scan_image once per entry, never stopping early, and its result maps every
listed image to that image's own scan outcome, failures included as the
None sentinel value rather than an exception. -/
theorem scan_multiple_images_sequential (st : ScannerState) (run : List String → ProcResult)
    (json_loads : String → Option JVal) (images : List String) (format : String)
    (sev : Option (List String)) :
    (scan_multiple_images st run json_loads images format sev).scanned = images
    ∧ ∀ img ∈ images,
        dictLookup img (scan_multiple_images st run json_loads images format sev).results =
          some ((scan_image st run json_loads img format sev none none).outcome) := by
  constructor
  · simpa using scanLoop_scanned st run json_loads format sev images [] []
  · intro img hmem
    exact scanLoop_lookup_mem st run json_loads format sev images [] [] img hmem

/-- Witness for C8: two images scanned against an empty database both end
bound to the None sentinel. -/
theorem scan_multiple_images_sequential_witness :
    (scan_multiple_images stEmptyDb runFailing jlNone ["alpine", "busybox"] "json" none).scanned
      = ["alpine", "busybox"]
    ∧ dictLookup "alpine"
        (scan_multiple_images stEmptyDb runFailing jlNone ["alpine", "busybox"] "json" none).results
      = some ((scan_image stEmptyDb runFailing jlNone "alpine" "json" none none none).outcome) :=
  ⟨(scan_multiple_images_sequential stEmptyDb runFailing jlNone ["alpine", "busybox"]
      "json" none).1,
   (scan_multiple_images_sequential stEmptyDb runFailing jlNone ["alpine", "busybox"]
      "json" none).2 "alpine" (by simp)⟩

/-- C9: list_local_images returns the empty list, never a raised error, when
the docker client is unavailable or the runtime query fails. -/
theorem list_local_images_fails_closed (client : Option (Except String (List DockerImage)))
    (h : client = none ∨ ∃ e, client = some (Except.error e)) :
    list_local_images client = [] := by
  rcases h with rfl | ⟨e, rfl⟩ <;> rfl

/-- Witness for C9 at the unavailable client. -/
theorem list_local_images_fails_closed_witness :
    list_local_images none = [] :=
  list_local_images_fails_closed none (Or.inl rfl)

end TrivyOfflineScanner
